import Mathlib

/-!
Verification development for the mixpanel-rs Tauri plugin core
(`packages/tauri-plugin-mixpanel/src/{persistence.rs, state.rs, people.rs}`).

The stateful Rust code is shallowly embedded as pure functions over explicit
state values:

* `serde_json::Value` is embedded as `Mixpanel.Value`; `serde_json::Number`
  (its three variants `PosInt : u64`, `NegInt : i64`, `Float : f64`) is
  embedded as `Mixpanel.JNum`, with `f64` payloads abstracted as exact
  rationals.
* `HashMap<String, V>` is embedded as the lookup function `String → Option V`
  (`Mixpanel.Pmap V`); `HashMap::extend` becomes a right-biased merge.
  Operations that iterate over a map take the map's entry list; serde maps
  have pairwise distinct keys, which appears as a `Nodup` hypothesis where
  the result depends on it.
* The ambient clock (`SystemTime::now` / `current_time_millis`) is passed in
  as an explicit `now` argument (epoch milliseconds).
* File and lock I/O is dropped: the async fire-and-forget save never changes
  the in-memory record, and lock acquisition is modelled as always
  succeeding.  The backing file's possible conditions at load time are
  reified in `Mixpanel.FileState`.
* The HTTP transport (`mixpanel_rs::Mixpanel::track`, an external
  collaborator with its own retry policy) is modelled as always accepting;
  the events handed to it are collected in order as `Mixpanel.Event` values,
  and People-API payloads as `Mixpanel.PeopleRequest` values.
-/

namespace Mixpanel

/-- Embedding of `serde_json::Number`: `pos` is the `PosInt(u64)` variant,
`neg` the `NegInt(i64)` variant, `flt` the `Float(f64)` variant with the
float abstracted as an exact rational. -/
inductive JNum where
  | pos (n : Nat)
  | neg (i : Int)
  | flt (q : ℚ)
deriving DecidableEq, Repr

/-- Embedding of `serde_json::Value`. -/
inductive Value where
  | null
  | bool (b : Bool)
  | num (n : JNum)
  | str (s : String)
  | arr (xs : List Value)
  | obj (fs : List (String × Value))
deriving Repr

mutual

/-- Structural equality on `Value`, mirroring the derived `PartialEq` used by
`serde_json::Value` (`==` in the Rust sources). -/
def Value.beq : Value → Value → Bool
  | .null, .null => true
  | .bool a, .bool b => decide (a = b)
  | .num a, .num b => decide (a = b)
  | .str a, .str b => decide (a = b)
  | .arr a, .arr b => Value.beqArr a b
  | .obj a, .obj b => Value.beqObj a b
  | _, _ => false

/-- Elementwise `Value.beq` on arrays. -/
def Value.beqArr : List Value → List Value → Bool
  | [], [] => true
  | x :: xs, y :: ys => Value.beq x y && Value.beqArr xs ys
  | _, _ => false

/-- Elementwise `Value.beq` on object entry lists. -/
def Value.beqObj : List (String × Value) → List (String × Value) → Bool
  | [], [] => true
  | (k, v) :: xs, (k2, v2) :: ys => decide (k = k2) && Value.beq v v2 && Value.beqObj xs ys
  | _, _ => false

end

theorem Value.beq_iff_aux (n : Nat) :
    (∀ a b : Value, sizeOf a ≤ n → (Value.beq a b = true ↔ a = b)) ∧
    (∀ xs ys : List Value, sizeOf xs ≤ n → (Value.beqArr xs ys = true ↔ xs = ys)) ∧
    (∀ fs gs : List (String × Value), sizeOf fs ≤ n →
      (Value.beqObj fs gs = true ↔ fs = gs)) := by
  induction n with
  | zero =>
    refine ⟨fun a b h => absurd h ?_, fun xs ys h => ?_, fun fs gs h => ?_⟩
    · cases a <;> simp_arith
    · cases xs with
      | nil => cases ys <;> simp [Value.beqArr]
      | cons x t => exact absurd h (by simp_arith)
    · cases fs with
      | nil => cases gs <;> simp [Value.beqObj]
      | cons f t => exact absurd h (by simp_arith)
  | succ n ih =>
    obtain ⟨ihv, iha, iho⟩ := ih
    refine ⟨fun a b h => ?_, fun xs ys h => ?_, fun fs gs h => ?_⟩
    · cases a with
      | null => cases b <;> simp [Value.beq]
      | bool x => cases b <;> simp [Value.beq]
      | num x => cases b <;> simp [Value.beq]
      | str x => cases b <;> simp [Value.beq]
      | arr xs =>
        have hsz : sizeOf xs ≤ n := by simp_arith at h; omega
        cases b <;> simp [Value.beq]
        exact iha xs _ hsz
      | obj fs =>
        have hsz : sizeOf fs ≤ n := by simp_arith at h; omega
        cases b <;> simp [Value.beq]
        exact iho fs _ hsz
    · cases xs with
      | nil => cases ys <;> simp [Value.beqArr]
      | cons x t =>
        have hx : sizeOf x ≤ n := by simp_arith at h; omega
        have ht : sizeOf t ≤ n := by simp_arith at h; omega
        cases ys <;> simp [Value.beqArr]
        rw [ihv x _ hx, iha t _ ht]
    · cases fs with
      | nil => cases gs <;> simp [Value.beqObj]
      | cons f t =>
        obtain ⟨k, v⟩ := f
        have hx : sizeOf v ≤ n := by simp_arith at h; omega
        have ht : sizeOf t ≤ n := by simp_arith at h; omega
        cases gs with
        | nil => simp [Value.beqObj]
        | cons g t2 =>
          obtain ⟨k2, v2⟩ := g
          simp [Value.beqObj]
          rw [ihv v _ hx, iho t _ ht]

instance : DecidableEq Value := fun a b =>
  decidable_of_iff (Value.beq a b = true)
    ((Value.beq_iff_aux (sizeOf a)).1 a b (Nat.le_refl _))

/-- Embedding of `str::starts_with` (Rust) on UTF-8 strings, as a character
prefix test.  (`String.startsWith` from core is byte-based and does not
reduce in the kernel, so concrete instances could not be checked.) -/
def starts_with (s p : String) : Bool := p.data.isPrefixOf s.data

/-- Embedding of `serde_json::Value::is_number`. -/
def Value.is_number : Value → Bool
  | .num _ => true
  | _ => false

/-- Embedding of `serde_json::Value::as_str` (only the `String` variant). -/
def Value.as_str : Value → Option String
  | .str s => some s
  | _ => none

/-- Embedding of `serde_json::Value::as_i64`: a `PosInt` that fits in `i64`,
any `NegInt`, never a `Float`. -/
def Value.as_i64 : Value → Option Int
  | .num (.pos n) => if n < 2 ^ 63 then some (n : Int) else none
  | .num (.neg i) => some i
  | _ => none

/-- Embedding of `HashMap<String, α>` as its lookup function. -/
def Pmap (α : Type) : Type := String → Option α

/-- The empty map (`HashMap::new` / `Default`). -/
def Pmap.empty {α : Type} : Pmap α := fun _ => none

/-- `HashMap::insert`. -/
def Pmap.insert {α : Type} (m : Pmap α) (k : String) (v : α) : Pmap α :=
  fun x => if x = k then some v else m x

/-- `HashMap::remove` (the removed value, when needed, is read before). -/
def Pmap.remove {α : Type} (m : Pmap α) (k : String) : Pmap α :=
  fun x => if x = k then none else m x

/-- `HashMap::extend`: entries of `h` overwrite entries of `m` key-by-key. -/
def Pmap.extend {α : Type} (m h : Pmap α) : Pmap α :=
  fun x => match h x with
  | some v => some v
  | none => m x

/-- A one-entry map. -/
def Pmap.single {α : Type} (k : String) (v : α) : Pmap α :=
  Pmap.empty.insert k v

/-- Collecting an entry list into a `HashMap`
(`map.into_iter().collect()`): a later entry overwrites an earlier one
with the same key. -/
def Pmap.ofEntries {α : Type} : List (String × α) → Pmap α
  | [] => Pmap.empty
  | (k, v) :: t => (Pmap.single k v).extend (Pmap.ofEntries t)

theorem Pmap.insert_self {α : Type} (m : Pmap α) (k : String) (v : α) :
    m.insert k v k = some v := by
  simp [Pmap.insert]

theorem Pmap.insert_other {α : Type} (m : Pmap α) {x k : String} (h : x ≠ k) (v : α) :
    m.insert k v x = m x := by
  simp [Pmap.insert, h]

theorem Pmap.remove_other {α : Type} (m : Pmap α) {x k : String} (h : x ≠ k) :
    m.remove k x = m x := by
  simp [Pmap.remove, h]

theorem Pmap.extend_apply {α : Type} (m h : Pmap α) (x : String) :
    (m.extend h) x = match h x with
      | some v => some v
      | none => m x := rfl

/-- Embedding of `persistence.rs::PersistentData` (the in-memory persisted
record; timestamps are epoch milliseconds). -/
structure PersistentData where
  distinct_id : Option String
  «alias» : Option String
  event_timers : Pmap Nat
  properties : Pmap Value
  store_expires_at : Option Nat

/-- The `Default` record: everything absent/empty. -/
def PersistentData.default : PersistentData :=
  { distinct_id := none
    «alias» := none
    event_timers := Pmap.empty
    properties := Pmap.empty
    store_expires_at := none }

/-- Expiry timestamp computed by `Persistence::register` /
`Persistence::register_once` for `days = d`:
`current_time_millis() + Duration::from_secs(d * 24 * 60 * 60).as_millis() as u64`,
with the `u64` wrap-arounds made explicit. -/
def expiryFromDays (now d : Nat) : Nat :=
  (now + (((d * 86400) % 2 ^ 64) * 1000) % 2 ^ 64) % 2 ^ 64

/-- The expiry-update block shared verbatim by `Persistence::register` and
`Persistence::register_once`: for `days = Some(d)` with `d > 0` the new
expiry is written only when it is later than the current one or the current
one has already passed (`map_or(true, ..)` also writes when none is set);
`d = 0` clears the expiry; `days = None` leaves it untouched. -/
def PersistentData.applyExpiry (s : PersistentData) (days : Option Nat) (now : Nat) :
    PersistentData :=
  match days with
  | some d =>
    if 0 < d then
      let expires_at := expiryFromDays now d
      let write : Bool :=
        match s.store_expires_at with
        | none => true
        | some current_exp => decide (expires_at > current_exp) || decide (now ≥ current_exp)
      if write then { s with store_expires_at := some expires_at } else s
    else { s with store_expires_at := none }
  | none => s

/-- Embedding of `Persistence::register`: extend the stored properties with
`props` (later entries win key-by-key), then run the expiry-update block. -/
def PersistentData.register (s : PersistentData) (props : Pmap Value)
    (days : Option Nat) (now : Nat) : PersistentData :=
  ({ s with properties := s.properties.extend props }).applyExpiry days now

/-- The per-key loop of `Persistence::register_once` over the supplied
entries: an absent key is filled; a present key is overwritten only when a
default was supplied and the stored value equals it.  Returns the updated
map and the `changed` flag. -/
def registerOnceLoop (props : List (String × Value)) (default_value : Option Value)
    (m : Pmap Value) (changed : Bool) : Pmap Value × Bool :=
  match props with
  | [] => (m, changed)
  | (key, value) :: t =>
    match m key with
    | some existing_val =>
      match default_value with
      | some d =>
        if existing_val = d then registerOnceLoop t default_value (m.insert key value) true
        else registerOnceLoop t default_value m changed
      | none => registerOnceLoop t default_value m changed
    | none => registerOnceLoop t default_value (m.insert key value) true

/-- Embedding of `Persistence::register_once`: run the per-key loop, then run
the expiry-update block only when something changed. -/
def PersistentData.register_once (s : PersistentData) (props : List (String × Value))
    (default_value : Option Value) (days : Option Nat) (now : Nat) : PersistentData :=
  let r := registerOnceLoop props default_value s.properties false
  let s2 := { s with properties := r.1 }
  if r.2 then s2.applyExpiry days now else s2

/-- Embedding of `Persistence::unregister`. -/
def PersistentData.unregister (s : PersistentData) (property_name : String) :
    PersistentData :=
  { s with properties := s.properties.remove property_name }

/-- Embedding of `Persistence::get_properties`: the stored map, or empty when
the store has expired (`now ≥ expires_at`). -/
def PersistentData.get_properties (s : PersistentData) (now : Nat) : Pmap Value :=
  match s.store_expires_at with
  | some expires_at => if now ≥ expires_at then Pmap.empty else s.properties
  | none => s.properties

/-- Embedding of `Persistence::get_property`: `None` when the key is absent
or the store has expired. -/
def PersistentData.get_property (s : PersistentData) (now : Nat) (key : String) :
    Option Value :=
  match s.store_expires_at with
  | some expires_at => if now ≥ expires_at then none else s.properties key
  | none => s.properties key

/-- Embedding of `Persistence::set_distinct_id`. -/
def PersistentData.set_distinct_id (s : PersistentData) (id : Option String) :
    PersistentData :=
  { s with distinct_id := id }

/-- Embedding of `Persistence::set_event_timer` (a later call for the same
event name overwrites the open timer). -/
def PersistentData.set_event_timer (s : PersistentData) (event : String)
    (timestamp : Nat) : PersistentData :=
  { s with event_timers := s.event_timers.insert event timestamp }

/-- Embedding of `Persistence::remove_event_timer`: the removed start
timestamp (if any) together with the updated record. -/
def PersistentData.remove_event_timer (s : PersistentData) (event : String) :
    Option Nat × PersistentData :=
  (s.event_timers event, { s with event_timers := s.event_timers.remove event })

/-- Possible conditions of the backing file when `Persistence::new` runs:
absent, unreadable (`read_to_string` fails), unparseable (`serde_json` fails),
or readable with a stored record. -/
inductive FileState where
  | absent
  | unreadable
  | unparseable
  | stored (data : PersistentData)

/-- Embedding of `PersistenceError` as far as `load_sync` can produce it. -/
inductive PersistenceError where
  | ioError
  | serdeError

/-- Embedding of `Persistence::load_sync`: an absent file yields the default
record; read/parse failures propagate as errors (caught by `Persistence::new`);
a stored record whose `store_expires_at` has passed (`now ≥ expires_at`)
yields the default record. -/
def load_sync (file : FileState) (now : Nat) : Except PersistenceError PersistentData :=
  match file with
  | .absent => .ok PersistentData.default
  | .unreadable => .error .ioError
  | .unparseable => .error .serdeError
  | .stored data =>
    match data.store_expires_at with
    | some expires_at =>
      if now ≥ expires_at then .ok PersistentData.default else .ok data
    | none => .ok data

/-- Embedding of `Persistence::new`: `load_sync` with every error degraded to
the default record (logged, never surfaced to the caller). -/
def persistenceNew (file : FileState) (now : Nat) : PersistentData :=
  match load_sync file now with
  | .ok data => data
  | .error _ => PersistentData.default

/-- Embedding of the plugin `error.rs::Error` variants the modelled code can
produce (`MixpanelError(String)`); transport failures are out of scope. -/
inductive Error where
  | mixpanelError (msg : String)
deriving DecidableEq, Repr

/-- Embedding of `state.rs::MixpanelState`: the persisted record plus the
in-memory (non-persistent) super-property overlay. -/
structure MixpanelState where
  pdata : PersistentData
  super_properties : Pmap Value

/-- An event handed to the transport (`mixpanel_rs::Mixpanel::track`). -/
structure Event where
  name : String
  props : Pmap Value

/-- Embedding of `MixpanelState::parse_props`: an object collects into a map,
null is empty, anything else is a usage error. -/
def parse_props : Value → Except Error (Pmap Value)
  | .obj entries => .ok (Pmap.ofEntries entries)
  | .null => .ok Pmap.empty
  | _ => .error (.mixpanelError "properties must be an object or null")

/-- Embedding of `MixpanelState::register` (options already parsed into the
`persistent` flag and `days`; `RegisterOptions::parse_options(None)` gives
`persistent = true`, `days = None`). -/
def MixpanelState.register (st : MixpanelState) (props : Pmap Value)
    (persistent : Bool) (days : Option Nat) (now : Nat) : MixpanelState :=
  if persistent then { st with pdata := st.pdata.register props days now }
  else { st with super_properties := st.super_properties.extend props }

/-- Embedding of `MixpanelState::register_once` (the properties are given as
the entry list of the parsed map). -/
def MixpanelState.register_once (st : MixpanelState) (props : List (String × Value))
    (default_value : Option Value) (persistent : Bool) (days : Option Nat)
    (now : Nat) : MixpanelState :=
  if persistent then
    { st with pdata := st.pdata.register_once props default_value days now }
  else
    { st with super_properties := (registerOnceLoop props default_value
        st.super_properties false).1 }

/-- Embedding of `MixpanelState::unregister`. -/
def MixpanelState.unregister (st : MixpanelState) (property_name : String)
    (persistent : Bool) : MixpanelState :=
  if persistent then { st with pdata := st.pdata.unregister property_name }
  else { st with super_properties := st.super_properties.remove property_name }

/-- Embedding of `MixpanelState::set_distinct_id`. -/
def MixpanelState.set_distinct_id (st : MixpanelState) (id : Option String) :
    MixpanelState :=
  { st with pdata := st.pdata.set_distinct_id id }

/-- Embedding of `MixpanelState::get_property`: the persistent store first,
the in-memory overlay only when the store yields nothing. -/
def MixpanelState.get_property (st : MixpanelState) (now : Nat) (property_name : String) :
    Option Value :=
  match st.pdata.get_property now property_name with
  | some value => some value
  | none => st.super_properties property_name

/-- Embedding of `MixpanelState::time_event`: record `now` (millis) as the
open timer for the event name. -/
def MixpanelState.time_event (st : MixpanelState) (now_ms : Nat) (event_name : String) :
    MixpanelState :=
  { st with pdata := st.pdata.set_event_timer event_name now_ms }

/-- Embedding of `MixpanelState::identify`.  The result is the updated state
together with the events handed to the transport (always empty or the single
`$identify` event).  Transport sends are modelled as succeeding, so the only
remaining outcomes of the Rust function are `Ok` results. -/
def MixpanelState.identify (st : MixpanelState) (now : Nat) (new_distinct_id : String) :
    Except Error (MixpanelState × List Event) :=
  let old_distinct_id : Option String := st.pdata.distinct_id
  let old_alias : Option String := (st.get_property now "$alias").bind Value.as_str
  if old_distinct_id = some new_distinct_id then .ok (st, [])
  else if starts_with new_distinct_id "$device:" then
    .ok (st, [])
  else
    let st1 :=
      if old_alias ≠ some new_distinct_id then
        if old_alias.isSome then st.unregister "$alias" true else st
      else st
    let st2 := st1.register (Pmap.single "$user_id" (.str new_distinct_id)) true none now
    let st3 :=
      if st2.pdata.get_property now "$device_id" = none then
        match old_distinct_id with
        | some old_id =>
          st2.register_once
            [("$device_id", .str old_id), ("$had_persisted_distinct_id", .bool true)]
            none true none now
        | none => st2
      else st2
    let st4 := st3.set_distinct_id (some new_distinct_id)
    let st5 := st4.register (Pmap.single "distinct_id" (.str new_distinct_id)) true none now
    match old_distinct_id with
    | some old_id =>
      .ok (st5, [{ name := "$identify",
                   props := Pmap.ofEntries
                     [("distinct_id", .str new_distinct_id),
                      ("$anon_distinct_id", .str old_id)] }])
    | none => .ok (st5, [])

/-- Embedding of `MixpanelState::alias`. -/
def MixpanelState.alias (st : MixpanelState) (now : Nat) (alias_id : String)
    (original : Option String) : Except Error (MixpanelState × List Event) :=
  let original_id : Except Error String :=
    match original with
    | some id => .ok id
    | none =>
      match st.pdata.distinct_id with
      | some id => .ok id
      | none => .error (.mixpanelError "Cannot alias without an existing distinct_id.")
  match original_id with
  | .error e => .error e
  | .ok original_id =>
    if alias_id = original_id then
      st.identify now alias_id
    else if (st.pdata.get_property now "$people_distinct_id").bind Value.as_str
        = some alias_id then
      .error (.mixpanelError
        "Attempting to create alias for existing People user - aborting.")
    else
      let st1 := st.register (Pmap.single "$alias" (.str alias_id)) true none now
      let create_alias_event : Event :=
        { name := "$create_alias",
          props := Pmap.ofEntries
            [("alias", .str alias_id), ("distinct_id", .str original_id)] }
      match st1.identify now alias_id with
      | .ok (st2, events) => .ok (st2, create_alias_event :: events)
      | .error e => .error e

/-- Embedding of `MixpanelState::track`: fails without a distinct_id;
otherwise merges persisted properties, the in-memory overlay and the
call-supplied properties (later layers overwriting), consumes an open event
timer (adding `$duration` only when `now ≥ start`; the `f64` division is
modelled as the exact rational, and the dead `Number::from_f64` fallback for
non-finite values is dropped), then forces `distinct_id` and `time` (epoch
seconds).  Returns the outgoing payload and the updated state. -/
def MixpanelState.track (st : MixpanelState) (now_ms : Nat) (event_name : String)
    (properties : Option Value) : Except Error (Pmap Value × MixpanelState) :=
  match st.pdata.distinct_id with
  | none => .error (.mixpanelError "Distinct ID not set. Call identify or alias first.")
  | some distinct_id =>
    match parse_props ((properties).getD .null) with
    | .error e => .error e
    | .ok input_props =>
      let persistent_props := st.pdata.get_properties now_ms
      let memory_props := st.super_properties
      let merged := (persistent_props.extend memory_props).extend input_props
      let removed := st.pdata.remove_event_timer event_name
      let with_duration :=
        match removed.1 with
        | some start_time_ms =>
          if start_time_ms ≤ now_ms then
            merged.insert "$duration"
              (.num (.flt (((now_ms : ℚ) - (start_time_ms : ℚ)) / 1000)))
          else merged
        | none => merged
      let final_props :=
        (with_duration.insert "distinct_id" (.str distinct_id)).insert "time"
          (.num (.pos (now_ms / 1000)))
      .ok (final_props, { st with pdata := removed.2 })

/-- Embedding of `people.rs::MixpanelPeople::is_reserved_property`. -/
def is_reserved_property (prop : String) : Bool :=
  prop = "$distinct_id" || prop = "$token" || prop = "$device_id" ||
    prop = "$user_id" || prop = "$had_persisted_distinct_id"

/-- Embedding of `MixpanelPeople::identify_called`: a distinct_id exists and
does not carry the device-fallback marker. -/
def MixpanelState.identify_called (st : MixpanelState) : Bool :=
  match st.pdata.distinct_id with
  | some id => !starts_with id "$device:"
  | none => false

/-- A People-API request handed to the transport
(`mixpanel_rs`'s `client.people.*`). -/
inductive PeopleRequest where
  | incrementReq (distinct_id : String) (props : List (String × Int))
  | genericReq (action : String) (distinct_id : String) (props : List (String × Value))

/-- The `$add` conversion loop of `MixpanelPeople::send_request`: every value
must convert with `as_i64`, otherwise the whole call errors. -/
def convertIncrementProps : List (String × Value) → Except Error (List (String × Int))
  | [] => .ok []
  | (key, value) :: t =>
    match value.as_i64 with
    | some n =>
      match convertIncrementProps t with
      | .ok rest => .ok ((key, n) :: rest)
      | .error e => .error e
    | none => .error (.mixpanelError ("Invalid increment value for key " ++ key))

/-- Embedding of `MixpanelPeople::send_request`.  Before `identify` has been
called the operation is logged and dropped (`Ok` with no request).  Only the
`$add` action needs its payload transformed; the other actions forward the
properties unchanged (their exact payload shapes are outside the claims). -/
def MixpanelState.send_request (st : MixpanelState) (action : String)
    (properties : List (String × Value)) : Except Error (Option PeopleRequest) :=
  if !st.identify_called then .ok none
  else
    match st.pdata.distinct_id with
    | none =>
      .error (.mixpanelError "Cannot perform People operation without a distinct_id.")
    | some distinct_id =>
      if action = "$add" then
        match convertIncrementProps properties with
        | .ok increment_props => .ok (some (.incrementReq distinct_id increment_props))
        | .error e => .error e
      else .ok (some (.genericReq action distinct_id properties))

/-- The filtering loop of `MixpanelPeople::increment` over the caller's map
entries: reserved keys are skipped, numeric values are kept, and any other
value aborts the whole call with an error. -/
def incrementFilter : List (String × Value) → Except Error (List (String × Value))
  | [] => .ok []
  | (key, value) :: t =>
    if is_reserved_property key then incrementFilter t
    else if value.is_number then
      match incrementFilter t with
      | .ok rest => .ok ((key, value) :: rest)
      | .error e => .error e
    else .error (.mixpanelError ("Invalid increment value for key " ++ key))

/-- Embedding of `MixpanelPeople::increment`.  The result is either an error
or the request handed to the transport (`none` when the call returns `Ok`
without sending anything). -/
def MixpanelState.people_increment (st : MixpanelState) (prop : Value)
    (by_amount : Option Value) : Except Error (Option PeopleRequest) :=
  match prop with
  | .obj entries =>
    match incrementFilter entries with
    | .error e => .error e
    | .ok filtered =>
      if filtered.isEmpty then .ok none
      else st.send_request "$add" filtered
  | .str key =>
    if is_reserved_property key then .ok none
    else
      let amount := by_amount.getD (.num (.pos 1))
      if !amount.is_number then
        .error (.mixpanelError "Invalid by argument for people.increment. Must be a number.")
      else st.send_request "$add" [(key, amount)]
  | _ =>
    .error (.mixpanelError
      "Invalid prop argument for people.increment. Must be String or Object.")

/-- A sample persisted record used to instantiate the theorems below:
identified as `u1`, one persisted property `p`. -/
def samplePd : PersistentData :=
  { distinct_id := some "u1"
    «alias» := none
    event_timers := Pmap.empty
    properties := Pmap.single "p" (.str "persisted")
    store_expires_at := none }

/-- A sample expired record: `store_expires_at` is 5 ms. -/
def samplePdExpired : PersistentData :=
  { distinct_id := some "u1"
    «alias» := none
    event_timers := Pmap.empty
    properties := Pmap.single "p" (.str "persisted")
    store_expires_at := some 5 }

/-- A sample full state: `samplePd` plus an overlay property `p`. -/
def sampleSt : MixpanelState :=
  { pdata := samplePd, super_properties := Pmap.single "p" (.str "overlay") }

/-- A sample state with an open timer for event `E` started at 1000 ms. -/
def sampleStTimer : MixpanelState := sampleSt.time_event 1000 "E"

/-- A sample state with no distinct_id. -/
def sampleStNoId : MixpanelState :=
  { pdata := { samplePd with distinct_id := none }
    super_properties := sampleSt.super_properties }

theorem PersistentData.applyExpiry_properties (s : PersistentData) (days : Option Nat)
    (now : Nat) : (s.applyExpiry days now).properties = s.properties := by
  unfold PersistentData.applyExpiry
  cases days with
  | none => rfl
  | some d =>
    by_cases hd : 0 < d <;> simp [hd]
    split <;> rfl

theorem PersistentData.get_property_eq (s : PersistentData) (now : Nat) (k : String) :
    s.get_property now k = s.get_properties now k := by
  unfold PersistentData.get_property PersistentData.get_properties
  cases s.store_expires_at with
  | none => rfl
  | some e =>
    by_cases hn : now ≥ e
    · simp [hn, Pmap.empty]
    · simp [hn]

theorem PersistentData.get_properties_none (s : PersistentData) (now : Nat) (k : String)
    (h : s.properties k = none) : s.get_properties now k = none := by
  unfold PersistentData.get_properties
  cases s.store_expires_at with
  | none => exact h
  | some e =>
    by_cases hn : now ≥ e
    · simp [hn, Pmap.empty]
    · simp [hn, h]

theorem registerOnceLoop_lookup_not_mem (props : List (String × Value))
    (default_value : Option Value) (m : Pmap Value) (changed : Bool) (k : String)
    (h : k ∉ props.map Prod.fst) :
    (registerOnceLoop props default_value m changed).1 k = m k := by
  induction props generalizing m changed with
  | nil => rfl
  | cons kv t ih =>
    obtain ⟨k0, v0⟩ := kv
    have hk0 : k ≠ k0 := by
      intro hh
      exact h (by simp [hh])
    have ht : k ∉ t.map Prod.fst := by
      intro hh
      exact h (by simp [hh])
    cases hm : m k0 with
    | some existing_val =>
      cases default_value with
      | some d =>
        by_cases hed : existing_val = d
        · simp only [registerOnceLoop, hm]
          rw [if_pos hed, ih _ _ ht, Pmap.insert_other _ hk0]
        · simp only [registerOnceLoop, hm]
          rw [if_neg hed, ih _ _ ht]
      | none =>
        simp only [registerOnceLoop, hm]
        exact ih _ _ ht
    | none =>
      simp only [registerOnceLoop, hm]
      rw [ih _ _ ht, Pmap.insert_other _ hk0]

theorem registerOnceLoop_lookup_mem (props : List (String × Value))
    (default_value : Option Value) (m : Pmap Value) (changed : Bool) (k : String)
    (v : Value) (hnd : (props.map Prod.fst).Nodup) (hmem : (k, v) ∈ props) :
    (registerOnceLoop props default_value m changed).1 k =
      match m k with
      | none => some v
      | some w => match default_value with
        | some d => if w = d then some v else some w
        | none => some w := by
  induction props generalizing m changed with
  | nil => cases hmem
  | cons kv t ih =>
    obtain ⟨k0, v0⟩ := kv
    rcases List.mem_cons.mp hmem with hhd | htl
    · obtain ⟨hk, hv⟩ := Prod.mk.injEq .. ▸ hhd
      subst hk hv
      have hnt : k ∉ t.map Prod.fst := by
        simpa using (List.nodup_cons.mp hnd).1
      cases hm : m k with
      | some existing_val =>
        cases default_value with
        | some d =>
          by_cases hed : existing_val = d
          · simp only [registerOnceLoop, hm]
            rw [if_pos hed, registerOnceLoop_lookup_not_mem _ _ _ _ _ hnt,
              Pmap.insert_self]
            simp [hed]
          · simp only [registerOnceLoop, hm]
            rw [if_neg hed, registerOnceLoop_lookup_not_mem _ _ _ _ _ hnt, hm]
            simp [hed]
        | none =>
          simp only [registerOnceLoop, hm]
          rw [registerOnceLoop_lookup_not_mem _ _ _ _ _ hnt, hm]
      | none =>
        simp only [registerOnceLoop, hm]
        rw [registerOnceLoop_lookup_not_mem _ _ _ _ _ hnt, Pmap.insert_self]
    · have hk0 : k ≠ k0 := by
        intro hh
        subst hh
        exact (List.nodup_cons.mp hnd).1 (by simpa using ⟨v, htl⟩)
      have hnt : (t.map Prod.fst).Nodup := (List.nodup_cons.mp hnd).2
      cases hm : m k0 with
      | some existing_val =>
        cases default_value with
        | some d =>
          by_cases hed : existing_val = d
          · simp only [registerOnceLoop, hm]
            rw [if_pos hed, ih _ _ hnt htl, Pmap.insert_other _ hk0]
          · simp only [registerOnceLoop, hm]
            rw [if_neg hed, ih _ _ hnt htl]
        | none =>
          simp only [registerOnceLoop, hm]
          exact ih _ _ hnt htl
      | none =>
        simp only [registerOnceLoop, hm]
        rw [ih _ _ hnt htl, Pmap.insert_other _ hk0]

/-- C2: `register(props, days)` on the persistent store: with `days = Some(d)`,
`d > 0`, the expiry becomes `now + d` days only when that value is later than
the current expiry or the current expiry has already passed (and always when
none is set); `days = Some(0)` clears the expiry; `days = None` leaves it
untouched. -/
theorem C2_register_expiry (s : PersistentData) (props : Pmap Value) (now : Nat) :
    ((s.register props none now).store_expires_at = s.store_expires_at) ∧
    ((s.register props (some 0) now).store_expires_at = none) ∧
    (∀ d, 0 < d →
      (s.register props (some d) now).store_expires_at =
        match s.store_expires_at with
        | none => some (expiryFromDays now d)
        | some current_exp =>
          if expiryFromDays now d > current_exp ∨ now ≥ current_exp
          then some (expiryFromDays now d) else some current_exp) := by
  refine ⟨rfl, rfl, fun d hd => ?_⟩
  show (PersistentData.applyExpiry _ _ _).store_expires_at = _
  unfold PersistentData.applyExpiry
  simp only [hd, if_pos]
  cases hc : s.store_expires_at with
  | none => simp
  | some current_exp =>
    by_cases hset : expiryFromDays now d > current_exp ∨ now ≥ current_exp
    · have : (decide (expiryFromDays now d > current_exp) ||
          decide (now ≥ current_exp)) = true := by
        rcases hset with h1 | h1 <;> simp [h1]
      simp [this, hset]
    · have : (decide (expiryFromDays now d > current_exp) ||
          decide (now ≥ current_exp)) = false := by
        push_neg at hset
        simp [hset.1, hset.2, Nat.not_le.mpr, Nat.not_lt.mpr]
      simp [this, hset, hc]

/-- C2 witness: a concrete run of all three branches (`days` absent, `0`, and
`2` against a record whose current expiry is in the future). -/
theorem C2_register_expiry_witness :
    (0 : Nat) < 2 ∧
    (samplePdExpired.register Pmap.empty (some 2) 1).store_expires_at
        = some (expiryFromDays 1 2) := by
  refine ⟨by decide, ?_⟩
  have h := (C2_register_expiry samplePdExpired Pmap.empty 1).2.2 2 (by decide)
  rw [h]
  decide

/-- C3: loading the persistent store never fails the caller: an absent,
unreadable or unparseable backing file yields the default record, a stored
record whose expiry has passed (`now ≥ expires_at`) yields the default
record, and reads (`get_properties` / `get_property`) on an expired record
yield the empty map / `None`. -/
theorem C3_load_never_fails (now : Nat) :
    (persistenceNew .absent now = PersistentData.default) ∧
    (persistenceNew .unreadable now = PersistentData.default) ∧
    (persistenceNew .unparseable now = PersistentData.default) ∧
    (∀ (data : PersistentData) (expires_at : Nat),
      data.store_expires_at = some expires_at → now ≥ expires_at →
      persistenceNew (.stored data) now = PersistentData.default) ∧
    (∀ (s : PersistentData) (expires_at : Nat),
      s.store_expires_at = some expires_at → now ≥ expires_at →
      s.get_properties now = Pmap.empty ∧ ∀ k, s.get_property now k = none) := by
  refine ⟨rfl, rfl, rfl, fun data expires_at he hn => ?_, fun s expires_at he hn => ?_⟩
  · simp [persistenceNew, load_sync, he, hn]
  · constructor
    · simp [PersistentData.get_properties, he, hn]
    · intro k
      simp [PersistentData.get_property, he, hn]

/-- C3 witness: a stored record expired at 5 ms, loaded and read at 10 ms. -/
theorem C3_load_never_fails_witness :
    samplePdExpired.store_expires_at = some 5 ∧ (10 : Nat) ≥ 5 ∧
    persistenceNew (.stored samplePdExpired) 10 = PersistentData.default ∧
    samplePdExpired.get_properties 10 = Pmap.empty ∧
    samplePdExpired.get_property 10 "p" = none := by
  have h4 := (C3_load_never_fails 10).2.2.2.1 samplePdExpired 5 rfl (by decide)
  have h5 := (C3_load_never_fails 10).2.2.2.2 samplePdExpired 5 rfl (by decide)
  exact ⟨rfl, by decide, h4, h5.1, h5.2 "p"⟩

/-- C4: `register_once` on the persistent store, per key of the supplied
properties (serde map entries, hence pairwise-distinct keys): an absent key
is filled with the supplied value; a present key is overwritten only when a
default value was supplied and the stored value equals it; otherwise the
stored value is untouched, and keys outside the supplied properties are
untouched. -/
theorem C4_register_once (s : PersistentData) (props : List (String × Value))
    (default_value : Option Value) (days : Option Nat) (now : Nat) (k : String)
    (v w : Value) (hnd : (props.map Prod.fst).Nodup) :
    ((k, v) ∈ props → s.properties k = none →
      (s.register_once props default_value days now).properties k = some v) ∧
    ((k, v) ∈ props → s.properties k = some w →
      (s.register_once props default_value days now).properties k =
        if default_value = some w then some v else some w) ∧
    (k ∉ props.map Prod.fst →
      (s.register_once props default_value days now).properties k =
        s.properties k) := by
  have hprops : (s.register_once props default_value days now).properties =
      (registerOnceLoop props default_value s.properties false).1 := by
    unfold PersistentData.register_once
    dsimp only
    split
    · rw [PersistentData.applyExpiry_properties]
    · rfl
  refine ⟨fun hmem habs => ?_, fun hmem hpres => ?_, fun hout => ?_⟩
  · rw [hprops, registerOnceLoop_lookup_mem props default_value s.properties false
      k v hnd hmem, habs]
  · rw [hprops, registerOnceLoop_lookup_mem props default_value s.properties false
      k v hnd hmem, hpres]
    cases default_value with
    | none => simp
    | some d =>
      by_cases hwd : w = d
      · subst hwd
        simp
      · simp [hwd, Ne.symm hwd, Option.some.injEq]
  · rw [hprops, registerOnceLoop_lookup_not_mem props default_value s.properties
      false k hout]

/-- C4 witness: filling an absent key, overwriting a present key that equals
the supplied default, and leaving an untouched key, all on `samplePd`. -/
theorem C4_register_once_witness :
    ([("p", Value.str "new"), ("q", Value.str "fresh")].map Prod.fst).Nodup ∧
    ("q", Value.str "fresh") ∈ [("p", Value.str "new"), ("q", Value.str "fresh")] ∧
    samplePd.properties "q" = none ∧
    (samplePd.register_once [("p", Value.str "new"), ("q", Value.str "fresh")]
      (some (.str "persisted")) none 0).properties "q" = some (.str "fresh") := by
  refine ⟨by decide, by decide, by decide, ?_⟩
  exact (C4_register_once samplePd [("p", Value.str "new"), ("q", Value.str "fresh")]
    (some (.str "persisted")) none 0 "q" (Value.str "fresh") Value.null
    (by decide)).1 (by decide) (by decide)

/-- C6: `identify(new_id)` where `new_id` carries the `$device:` prefix and
differs from the current distinct_id is rejected: the whole state
(distinct_id, properties, alias, timers and overlay) is returned unchanged,
no tracking event is emitted, and the call returns without an error. -/
theorem C6_identify_device_rejected (st : MixpanelState) (now : Nat)
    (new_distinct_id : String)
    (hpre : starts_with new_distinct_id "$device:" = true)
    (hne : st.pdata.distinct_id ≠ some new_distinct_id) :
    st.identify now new_distinct_id = .ok (st, []) := by
  simp [MixpanelState.identify, hne, hpre]

/-- C6 witness: `sampleSt` (identified as `u1`) rejecting `$device:abc`. -/
theorem C6_identify_device_rejected_witness :
    starts_with "$device:abc" "$device:" = true ∧
    sampleSt.pdata.distinct_id ≠ some "$device:abc" ∧
    sampleSt.identify 7 "$device:abc" = .ok (sampleSt, []) :=
  ⟨by decide, by decide,
    C6_identify_device_rejected sampleSt 7 "$device:abc" (by decide) (by decide)⟩

/-- C9: `alias(a, original)` with `a` equal to the resolved original id is
exactly an `identify(a)` call (no `$create_alias` event, no `$alias`
registration), both when `original` is supplied and when it defaults to the
current distinct_id; and `alias(a, None)` with no distinct_id fails with an
error. -/
theorem C9_alias_same_id (st : MixpanelState) (now : Nat) (alias_id : String) :
    (st.alias now alias_id (some alias_id) = st.identify now alias_id) ∧
    (st.pdata.distinct_id = some alias_id →
      st.alias now alias_id none = st.identify now alias_id) ∧
    (st.pdata.distinct_id = none →
      st.alias now alias_id none =
        .error (.mixpanelError "Cannot alias without an existing distinct_id.")) := by
  refine ⟨?_, fun hid => ?_, fun hid => ?_⟩
  · simp [MixpanelState.alias]
  · simp [MixpanelState.alias, hid]
  · simp [MixpanelState.alias, hid]

/-- C9 witness: `sampleSt` (distinct_id `u1`) aliasing `u1`, and
`sampleStNoId` failing to alias without a distinct_id. -/
theorem C9_alias_same_id_witness :
    sampleSt.pdata.distinct_id = some "u1" ∧
    sampleSt.alias 7 "u1" none = sampleSt.identify 7 "u1" ∧
    sampleStNoId.pdata.distinct_id = none ∧
    sampleStNoId.alias 7 "u1" none =
      .error (.mixpanelError "Cannot alias without an existing distinct_id.") :=
  ⟨rfl, (C9_alias_same_id sampleSt 7 "u1").2.1 rfl, rfl,
    (C9_alias_same_id sampleStNoId 7 "u1").2.2 rfl⟩

/-- C10: when the persistent store yields a value for a key
(`Persistence::get_property`, which already accounts for expiry) and the
in-memory overlay also holds that key, `MixpanelState::get_property` returns
the persistent value — while `track`'s merge gives the overlay value for
that key (the opposite precedence), whenever the key is not one of the
forced fields and not supplied with the call. -/
theorem C10_get_property_precedence (st : MixpanelState) (now : Nat)
    (k : String) (v w : Value)
    (hp : st.pdata.get_property now k = some v)
    (ho : st.super_properties k = some w) :
    st.get_property now k = some v ∧
    (∀ (id event_name : String) (entries : List (String × Value)),
      st.pdata.distinct_id = some id →
      Pmap.ofEntries entries k = none →
      k ≠ "distinct_id" → k ≠ "time" → k ≠ "$duration" →
      ∃ fp st2, st.track now event_name (some (.obj entries)) = .ok (fp, st2) ∧
        fp k = some w) := by
  constructor
  · simp [MixpanelState.get_property, hp]
  · intro id event_name entries hid hin hk1 hk2 hk3
    simp only [MixpanelState.track, hid, Option.getD_some, parse_props]
    refine ⟨_, _, rfl, ?_⟩
    simp only [Pmap.insert, hk1, hk2, if_neg]
    cases hrem : st.pdata.event_timers event_name with
    | none =>
      simp [PersistentData.remove_event_timer, hrem, Pmap.extend, hin, ho]
    | some start_time_ms =>
      by_cases hle : start_time_ms ≤ now <;>
        simp [PersistentData.remove_event_timer, hrem, hle, Pmap.insert, hk3,
          Pmap.extend, hin, ho]

/-- C10 witness: key `p` is `persisted` in the store and `overlay` in the
overlay; the read returns `persisted` while the tracked payload carries
`overlay`. -/
theorem C10_get_property_precedence_witness :
    sampleSt.pdata.get_property 3 "p" = some (.str "persisted") ∧
    sampleSt.super_properties "p" = some (.str "overlay") ∧
    sampleSt.get_property 3 "p" = some (.str "persisted") ∧
    ∃ fp st2, sampleSt.track 3 "E" (some (.obj [("k", .str "v")])) = .ok (fp, st2) ∧
      fp "p" = some (.str "overlay") := by
  have h := C10_get_property_precedence sampleSt 3 "p" (.str "persisted")
    (.str "overlay") rfl rfl
  exact ⟨rfl, rfl, h.1,
    h.2 "u1" "E" [("k", .str "v")] rfl rfl (by decide) (by decide) (by decide)⟩

theorem incrementFilter_error (entries : List (String × Value)) (k : String)
    (v : Value) (hmem : (k, v) ∈ entries) (hres : is_reserved_property k = false)
    (hnum : v.is_number = false) :
    ∃ msg, incrementFilter entries = .error (.mixpanelError msg) := by
  induction entries with
  | nil => cases hmem
  | cons kv t ih =>
    obtain ⟨k0, v0⟩ := kv
    rcases List.mem_cons.mp hmem with hhd | htl
    · obtain ⟨hk, hv⟩ := Prod.mk.injEq .. ▸ hhd
      subst hk hv
      exact ⟨"Invalid increment value for key " ++ k,
        by simp [incrementFilter, hres, hnum]⟩
    · by_cases h0 : is_reserved_property k0
      · obtain ⟨msg, hmsg⟩ := ih htl
        refine ⟨msg, ?_⟩
        simp [incrementFilter, h0, hmsg]
      · by_cases hn0 : v0.is_number
        · obtain ⟨msg, hmsg⟩ := ih htl
          refine ⟨msg, ?_⟩
          simp only [incrementFilter] at hmsg ⊢
          simp [h0, hn0, hmsg]
        · exact ⟨"Invalid increment value for key " ++ k0,
            by simp [incrementFilter, h0, hn0]⟩

/-- C8 counterexample: the map `{"$token": "x"}` carries a non-numeric value,
yet `increment` returns `Ok` without an error and without handing any
request to the transport — the reserved key is filtered out before the
numeric check, so the claimed "any non-numeric value aborts with an error"
fails. -/
theorem C8_counterexample :
    Value.is_number (.str "x") = false ∧
    sampleSt.people_increment (.obj [("$token", .str "x")]) none = .ok none :=
  ⟨rfl, rfl⟩

/-- C8 (amended): a non-numeric value at a non-reserved key aborts the whole
`increment` call with an error, and no request reaches the transport (values
at reserved keys are filtered out before the numeric check and cannot
trigger the abort). -/
theorem C8_increment_nonnumeric_aborts (st : MixpanelState)
    (entries : List (String × Value)) (by_amount : Option Value) (k : String)
    (v : Value) (hmem : (k, v) ∈ entries)
    (hres : is_reserved_property k = false) (hnum : v.is_number = false) :
    ∃ msg, st.people_increment (.obj entries) by_amount =
      .error (.mixpanelError msg) := by
  obtain ⟨msg, hmsg⟩ := incrementFilter_error entries k v hmem hres hnum
  exact ⟨msg, by simp [MixpanelState.people_increment, hmsg]⟩

/-- C8 witness for the amended claim: `{"a": "x"}` aborts with an error. -/
theorem C8_increment_nonnumeric_aborts_witness :
    ("a", Value.str "x") ∈ [("a", Value.str "x")] ∧
    is_reserved_property "a" = false ∧
    Value.is_number (.str "x") = false ∧
    ∃ msg, sampleSt.people_increment (.obj [("a", Value.str "x")]) none =
      .error (.mixpanelError msg) :=
  ⟨by decide, by decide, rfl,
    C8_increment_nonnumeric_aborts sampleSt [("a", Value.str "x")] none "a"
      (.str "x") (by decide) (by decide) rfl⟩

/-- C1: `track(event_name, properties)` fails with the "no distinct id"
error when no distinct_id is set; otherwise the outgoing payload merges,
lowest precedence first, the persisted properties (as read, i.e. respecting
expiry), the in-memory overlay properties, then the call-supplied
properties — later layers overwriting key-by-key — and forces `distinct_id`
and `time` (current epoch seconds) on top. -/
theorem C1_track_merge (st : MixpanelState) (now_ms : Nat) (event_name : String)
    (entries : List (String × Value)) :
    (st.pdata.distinct_id = none →
      st.track now_ms event_name (some (.obj entries)) =
        .error (.mixpanelError "Distinct ID not set. Call identify or alias first.")) ∧
    (∀ id, st.pdata.distinct_id = some id →
      ∃ fp st2, st.track now_ms event_name (some (.obj entries)) = .ok (fp, st2) ∧
        fp "distinct_id" = some (.str id) ∧
        fp "time" = some (.num (.pos (now_ms / 1000))) ∧
        ∀ k, k ≠ "distinct_id" → k ≠ "time" → k ≠ "$duration" →
          fp k =
            match Pmap.ofEntries entries k with
            | some v => some v
            | none =>
              match st.super_properties k with
              | some v => some v
              | none => st.pdata.get_properties now_ms k) := by
  constructor
  · intro hid
    simp [MixpanelState.track, hid]
  · intro id hid
    simp only [MixpanelState.track, hid, Option.getD_some, parse_props]
    refine ⟨_, _, rfl, ?_, ?_, ?_⟩
    · simp [Pmap.insert]
    · simp [Pmap.insert]
    · intro k hk1 hk2 hk3
      cases hrem : st.pdata.event_timers event_name with
      | none =>
        simp [PersistentData.remove_event_timer, hrem, Pmap.insert, hk1, hk2,
          Pmap.extend]
        cases Pmap.ofEntries entries k <;> cases st.super_properties k <;> rfl
      | some start_time_ms =>
        by_cases hle : start_time_ms ≤ now_ms <;>
          simp [PersistentData.remove_event_timer, hrem, hle, Pmap.insert,
            hk1, hk2, hk3, Pmap.extend] <;>
          cases Pmap.ofEntries entries k <;> cases st.super_properties k <;> rfl

/-- C1 witness: `track` fails on a state without a distinct_id; on `sampleSt`
(identified as `u1`, with `p` both persisted and overlaid) the payload forces
`distinct_id` and `time`, keeps the call-supplied `k`, and `p` resolves to
the overlay layer. -/
theorem C1_track_merge_witness :
    sampleStNoId.pdata.distinct_id = none ∧
    (sampleStNoId.track 5000 "E" (some (.obj [("k", .str "v")])) =
      .error (.mixpanelError "Distinct ID not set. Call identify or alias first.")) ∧
    sampleSt.pdata.distinct_id = some "u1" ∧
    (∃ fp st2,
      sampleSt.track 5000 "E" (some (.obj [("k", .str "v")])) = .ok (fp, st2) ∧
      fp "distinct_id" = some (.str "u1") ∧
      fp "time" = some (.num (.pos 5)) ∧
      fp "k" = some (.str "v") ∧ fp "p" = some (.str "overlay")) := by
  refine ⟨rfl, (C1_track_merge sampleStNoId 5000 "E" [("k", .str "v")]).1 rfl,
    rfl, ?_⟩
  obtain ⟨fp, st2, heq, hd, ht, hall⟩ :=
    (C1_track_merge sampleSt 5000 "E" [("k", .str "v")]).2 "u1" rfl
  exact ⟨fp, st2, heq, hd, ht,
    (hall "k" (by decide) (by decide) (by decide)).trans rfl,
    (hall "p" (by decide) (by decide) (by decide)).trans rfl⟩

/-- C5: when `track(event_name)` finds an open timer, `$duration` (seconds)
is `(now_ms - start_ms) / 1000` and is included only when `now ≥ start`
(otherwise it is omitted), the timer entry is removed in either case, and an
immediately following `track` of the same event carries no `$duration`
(when no property layer supplies one). -/
theorem C5_track_duration (st : MixpanelState) (now_ms : Nat) (event_name : String)
    (entries : List (String × Value)) (id : String) (start_ms : Nat)
    (hid : st.pdata.distinct_id = some id)
    (htimer : st.pdata.event_timers event_name = some start_ms) :
    ∃ fp st2, st.track now_ms event_name (some (.obj entries)) = .ok (fp, st2) ∧
      (start_ms ≤ now_ms →
        fp "$duration" =
          some (.num (.flt (((now_ms : ℚ) - (start_ms : ℚ)) / 1000)))) ∧
      (now_ms < start_ms →
        Pmap.ofEntries entries "$duration" = none →
        st.super_properties "$duration" = none →
        st.pdata.properties "$duration" = none →
        fp "$duration" = none) ∧
      st2.pdata.event_timers event_name = none ∧
      (∀ (now2 : Nat) (entries2 : List (String × Value)),
        Pmap.ofEntries entries2 "$duration" = none →
        st.super_properties "$duration" = none →
        st.pdata.properties "$duration" = none →
        ∃ fp2 st3, st2.track now2 event_name (some (.obj entries2)) = .ok (fp2, st3) ∧
          fp2 "$duration" = none) := by
  simp only [MixpanelState.track, hid, Option.getD_some, parse_props]
  refine ⟨_, _, rfl, ?_, ?_, ?_, ?_⟩
  · intro hle
    simp [PersistentData.remove_event_timer, htimer, hle, Pmap.insert]
  · intro hlt h1 h2 h3
    have h3g := PersistentData.get_properties_none st.pdata now_ms "$duration" h3
    simp [PersistentData.remove_event_timer, htimer, Nat.not_le.mpr hlt,
      Pmap.insert, Pmap.extend, h1, h2, h3g]
  · simp [PersistentData.remove_event_timer, Pmap.remove]
  · intro now2 entries2 h1 h2 h3
    have h3g : ((st.pdata.remove_event_timer event_name).2).get_properties now2
        "$duration" = none :=
      PersistentData.get_properties_none _ now2 "$duration" h3
    simp only [MixpanelState.track, PersistentData.remove_event_timer, hid,
      Option.getD_some, parse_props]
    refine ⟨_, _, rfl, ?_⟩
    simp only [PersistentData.remove_event_timer] at h3g
    simp [Pmap.remove, Pmap.insert, Pmap.extend, h1, h2, h3g]
    rw [hid] at h3g
    exact h3g

/-- C5 witness: timer for `E` started at 1000 ms; tracking at 3500 ms yields
`$duration = 5/2` seconds and consumes the timer, and a second track at
9000 ms carries no `$duration`. -/
theorem C5_track_duration_witness :
    sampleStTimer.pdata.distinct_id = some "u1" ∧
    sampleStTimer.pdata.event_timers "E" = some 1000 ∧
    ∃ fp st2, sampleStTimer.track 3500 "E" (some (.obj [])) = .ok (fp, st2) ∧
      fp "$duration" = some (.num (.flt (5 / 2))) ∧
      st2.pdata.event_timers "E" = none ∧
      ∃ fp2 st3, st2.track 9000 "E" (some (.obj [])) = .ok (fp2, st3) ∧
        fp2 "$duration" = none := by
  obtain ⟨fp, st2, heq, hdur, _, hrem, hnext⟩ :=
    C5_track_duration sampleStTimer 3500 "E" [] "u1" 1000 rfl rfl
  obtain ⟨fp2, st3, heq2, hd2⟩ := hnext 9000 [] rfl rfl rfl
  have hq : (((3500 : Nat) : ℚ) - ((1000 : Nat) : ℚ)) / 1000 = 5 / 2 := by
    norm_num
  exact ⟨rfl, rfl, fp, st2, heq, hq ▸ hdur (by decide), hrem, fp2, st3, heq2, hd2⟩

/-- C7: `identify(new_id)` with `new_id` neither device-prefixed nor equal to
the current distinct_id emits exactly one `$identify` event carrying
`distinct_id = new_id` and `$anon_distinct_id = previous id` when a previous
distinct_id existed, and emits no event when none existed. -/
theorem C7_identify_event (st : MixpanelState) (now : Nat) (new_distinct_id : String)
    (hpre : starts_with new_distinct_id "$device:" = false)
    (hne : st.pdata.distinct_id ≠ some new_distinct_id) :
    (∀ old_id, st.pdata.distinct_id = some old_id →
      ∃ st2 p, st.identify now new_distinct_id =
          .ok (st2, [{ name := "$identify", props := p }]) ∧
        p "distinct_id" = some (.str new_distinct_id) ∧
        p "$anon_distinct_id" = some (.str old_id)) ∧
    (st.pdata.distinct_id = none →
      ∃ st2, st.identify now new_distinct_id = .ok (st2, [])) := by
  constructor
  · intro old_id hid
    rw [hid] at hne
    have hpre2 : ¬ starts_with new_distinct_id "$device:" = true := by
      simp [hpre]
    simp only [MixpanelState.identify, hid, hne, hpre2, if_false, if_true]
    refine ⟨_, _, rfl, ?_, ?_⟩
    · simp [Pmap.ofEntries, Pmap.single, Pmap.insert, Pmap.extend, Pmap.empty]
    · simp [Pmap.ofEntries, Pmap.single, Pmap.insert, Pmap.extend, Pmap.empty]
  · intro hid
    have hne2 : ¬ ((none : Option String) = some new_distinct_id) := by simp
    have hpre2 : ¬ starts_with new_distinct_id "$device:" = true := by
      simp [hpre]
    simp only [MixpanelState.identify, hid, hne2, hpre2, if_false, if_true]
    exact ⟨_, rfl⟩

/-- C7 witness: `sampleSt` (previously `u1`) gets the `$identify` event when
identifying as `u2`; `sampleStNoId` emits no event. -/
theorem C7_identify_event_witness :
    starts_with "u2" "$device:" = false ∧
    sampleSt.pdata.distinct_id = some "u1" ∧
    (∃ st2 p, sampleSt.identify 7 "u2" =
        .ok (st2, [{ name := "$identify", props := p }]) ∧
      p "distinct_id" = some (.str "u2") ∧
      p "$anon_distinct_id" = some (.str "u1")) ∧
    (∃ st2, sampleStNoId.identify 7 "u2" = .ok (st2, [])) :=
  ⟨rfl, rfl,
    (C7_identify_event sampleSt 7 "u2" (by decide) (by decide)).1 "u1" rfl,
    (C7_identify_event sampleStNoId 7 "u2" (by decide) (by decide)).2 rfl⟩

end Mixpanel
